import Mathlib

/-!
A shallow embedding of `notion_requests/client.py` (notion-py-requests).

The embedding models:
  * JSON values (`JVal`) and Python keyword-argument dictionaries (`Dict`,
    association lists with Python's insertion-order update semantics);
  * `Client.request`: one HTTP call followed by `raise_for_status`, embedded
    as a small free-monad-style `Http` program run against a pure `Oracle`
    (the remote server), so that the number of transport calls is observable;
  * `Client.paginate` and the generator methods of the endpoint layer
    (`Databases.query`, `Databases.list`, `Users.list`, `Search.__call__`,
    `BlocksChildren.list`).  Python generator semantics are embedded
    denotationally: consuming a generator to exhaustion produces a `Trace`,
    a list of demand steps, each step recording how many transport calls
    that demand performed together with the element it yielded, plus a final
    demand that performs some transport calls and ends in `StopIteration`
    (`none`) or an uncaught exception (`some e`).

A critical point of fidelity: in the source, the `fn` passed to
`Client.paginate` is always a generator function (`self.query`, `self.list`,
`self.__call__`, ...).  In Python, calling a generator function merely
creates a generator object and executes none of its body, so the statement
`yield fn(*args, **kwargs)` on line 75 yields a generator object (modelled
by `Elem.gen`, carrying the trace that iterating that object would produce)
and performs no network call at that demand.  The embedding reproduces this
exactly rather than the flattened `yield from` behaviour.
-/

/-- JSON values, as produced by `Response.json()`. Numbers are modelled as
integers; no claim touches non-integral numerics. -/
inductive JVal : Type where
  | null : JVal
  | bool (b : Bool) : JVal
  | num (n : Int) : JVal
  | str (s : String) : JVal
  | arr (xs : List JVal) : JVal
  | dict (es : List (String × JVal)) : JVal

/-- Python keyword-argument mapping / JSON object body: an ordered
association list, as collected by `**kwargs`. -/
abbrev Dict := List (String × JVal)

/-- Lookup of a key in an ordered association list (first match wins;
Python dicts have unique keys, which lookup does not rely on). -/
def alookup : Dict → String → Option JVal
  | [], _ => none
  | (k', v) :: es, k => if k' = k then some v else alookup es k

/-- Python `d[k] = v` on an insertion-ordered dict: overwrite in place if
the key is present, otherwise append at the end. -/
def dinsert : Dict → String → JVal → Dict
  | [], k, v => [(k, v)]
  | (k', v') :: es, k, v =>
      if k' = k then (k, v) :: es else (k', v') :: dinsert es k v

/-- Uncaught Python exceptions relevant to the client: `KeyError` from a
`data[...]` subscript, `TypeError` from subscripting a non-mapping, and
`requests.exceptions.HTTPError` raised by `raise_for_status` (carrying the
response status and decoded body). -/
inductive PyErr : Type where
  | keyError (k : String) : PyErr
  | typeError : PyErr
  | httpError (status : Nat) (body : JVal) : PyErr

/-- Python subscript `v[k]` on a decoded JSON value: a `KeyError` when the
mapping lacks the key, a `TypeError` when the value is not a mapping. -/
def jGet (v : JVal) (k : String) : Except PyErr JVal :=
  match v with
  | JVal.dict es =>
      match alookup es k with
      | some x => Except.ok x
      | none => Except.error (PyErr.keyError k)
  | _ => Except.error PyErr.typeError

/-- Python truthiness of a decoded JSON value, as tested by
`if data['has_more']:`. -/
def truthy : JVal → Bool
  | JVal.null => false
  | JVal.bool b => b
  | JVal.num n => decide (n ≠ 0)
  | JVal.str s => decide (s ≠ "")
  | JVal.arr xs => !xs.isEmpty
  | JVal.dict es => !es.isEmpty

/-- An HTTP response: status code and decoded JSON body (`r.json()` returns
`body`). -/
structure HttpResponse : Type where
  status : Nat
  body : JVal

/-- The remote server, as a pure function of method, endpoint path and JSON
payload. -/
abbrev Oracle := String → String → Dict → HttpResponse

/-- Status codes for which `requests.Response.raise_for_status` raises
`HTTPError`: client errors (4xx) and server errors (5xx). -/
def isErrorStatus (s : Nat) : Bool := decide (400 ≤ s) && decide (s < 600)

/-- A synchronous HTTP computation: pure result, raised exception, or one
transport call with a continuation.  Embedding requests this way keeps the
number of transport calls observable. -/
inductive Http (α : Type) : Type where
  | pure (a : α) : Http α
  | raise (e : PyErr) : Http α
  | call (method endpoint : String) (json : Dict) (k : HttpResponse → Http α) : Http α

/-- Sequencing of HTTP computations. -/
def Http.andThen {α β : Type} : Http α → (α → Http β) → Http β
  | Http.pure a, f => f a
  | Http.raise e, _ => Http.raise e
  | Http.call m ep j k, f => Http.call m ep j (fun r => Http.andThen (k r) f)

/-- Run an HTTP computation against the server. -/
def Http.runWith {α : Type} (oracle : Oracle) : Http α → Except PyErr α
  | Http.pure a => Except.ok a
  | Http.raise e => Except.error e
  | Http.call m ep j k => Http.runWith oracle (k (oracle m ep j))

/-- Number of transport calls an HTTP computation performs when run against
the server (calls made before an uncaught exception are counted). -/
def Http.countCalls {α : Type} (oracle : Oracle) : Http α → Nat
  | Http.pure _ => 0
  | Http.raise _ => 0
  | Http.call m ep j k => Http.countCalls oracle (k (oracle m ep j)) + 1

namespace Client

/-- Embedding of `Client.request` (client.py lines 42-56): one
`requests.request` call, then `raise_for_status` — an `HTTPError` carrying
the response when the status is 4xx/5xx — then the response is returned.
Auth and version headers are constant configuration and are outside the
model. -/
def request (method endpoint : String) (json : Dict) : Http HttpResponse :=
  Http.call method endpoint json (fun r =>
    if isErrorStatus r.status then Http.raise (PyErr.httpError r.status r.body)
    else Http.pure r)

end Client

/-- One element yielded by a generator in this library: either a decoded
page mapping, or a generator object created by calling a generator function
(line 75 `yield fn(*args, **kwargs)` yields such an object).  A generator
object is characterized by the trace iterating it would produce: its demand
steps (transport calls performed at that demand, element yielded) and its
final demand (transport calls, then `StopIteration` or an exception). -/
inductive Elem : Type where
  | page (d : JVal) : Elem
  | gen (steps : List (Nat × Elem)) (fin : Nat × Option PyErr) : Elem

/-- The trace of consuming a generator to exhaustion: the demand steps that
yield elements, then the final demand's transport-call count and outcome
(`none` = normal `StopIteration`, `some e` = uncaught exception `e`). -/
abbrev Trace := List (Nat × Elem) × (Nat × Option PyErr)

/-- Pack a trace as a generator-object element. -/
def Elem.genOf (t : Trace) : Elem := Elem.gen t.1 t.2

/-- Embedding of lines 71-74 of `Client.paginate`: inject the cursor into
the keyword arguments.  The source guards with `if kwargs is not None`, so
the parameter is an `Option Dict` here; Python's `**kwargs` collection in
fact always produces a dict (possibly empty), never `None`. -/
def injectCursor (kwargs : Option Dict) (cur : JVal) : Dict :=
  match kwargs with
  | some kw => dinsert kw "start_cursor" cur
  | none => [("start_cursor", cur)]

namespace Client

/-- Embedding of `Client.paginate` (client.py lines 58-75) as the trace of
consuming the generator it returns.  `fnCall args kw` is the element
produced by evaluating `fn(*args, **kwargs)`; in this repository `fn` is
always a generator function, so that evaluation creates a generator object
and performs no transport call, hence every step of `paginate` itself
performs `0` calls.  Demand 1 yields `data`; demand 2 evaluates
`data['has_more']` (a lookup that can raise), on truthiness looks up
`data['next_cursor']`, injects the cursor and yields `fn(*args, **kwargs)`;
the following demand ends the generator.  `A` is the opaque type of the
positional `*args`, threaded through unchanged and uninspected. -/
def paginate {A : Type} (fnCall : A → Dict → Elem) (data : JVal) (args : A)
    (kwargs : Option Dict) : Trace :=
  match jGet data "has_more" with
  | Except.error e => ([(0, Elem.page data)], (0, some e))
  | Except.ok hm =>
      if truthy hm then
        match jGet data "next_cursor" with
        | Except.error e => ([(0, Elem.page data)], (0, some e))
        | Except.ok cur =>
            ([(0, Elem.page data), (0, fnCall args (injectCursor kwargs cur))],
             (0, none))
      else ([(0, Elem.page data)], (0, none))

/-- Variant of the `paginate` body without the dead defensive `None` branch
of lines 71-74: the cursor is always injected by updating the existing
keyword-argument dict. -/
def paginateDictOnly {A : Type} (fnCall : A → Dict → Elem) (data : JVal) (args : A)
    (kwargs : Dict) : Trace :=
  match jGet data "has_more" with
  | Except.error e => ([(0, Elem.page data)], (0, some e))
  | Except.ok hm =>
      if truthy hm then
        match jGet data "next_cursor" with
        | Except.error e => ([(0, Elem.page data)], (0, some e))
        | Except.ok cur =>
            ([(0, Elem.page data), (0, fnCall args (dinsert kwargs "start_cursor" cur))],
             (0, none))
      else ([(0, Elem.page data)], (0, none))

end Client

/-- Attribute transport calls performed before a generator's first yield to
the first demand of its trace (used for `yield from` composition: the
initial request of a list method and `paginate`'s first yield happen inside
one consumer demand). -/
def chargeFirst (n : Nat) : Trace → Trace
  | ([], (m, e)) => ([], (n + m, e))
  | ((m, x) :: rest, fin) => ((n + m, x) :: rest, fin)

/-- Endpoint path construction, `Endpoint._build_endpoint` (lines 88-100):
prepend the resource name to the action when an action is given. -/
def buildEndpoint (name : String) (action : Option String) : String :=
  match action with
  | some a => name ++ "/" ++ a
  | none => name

namespace Databases

/-- The request half of `Databases.query` (lines 152-154): POST to
`databases/{database_id}/query` with the payload as JSON body, then decode
the response (`r.json()`). -/
def queryFetch (database_id : String) (payload : Dict) : Http JVal :=
  Http.andThen (Client.request "POST"
      (buildEndpoint "databases" (some (database_id ++ "/query"))) payload)
    (fun r => Http.pure r.body)

/-- Embedding of the generator `Databases.query` (lines 144-155) run to
exhaustion against the server.  Its first demand performs the POST (an
`HTTPError` there surfaces before any element); the remaining demands
delegate to `Client.paginate (self.query) data database_id **payload`,
where `self.query` is a generator function, so `fn(*args, **kwargs)`
creates the nested generator embedded by the recursive call.  `fuel` bounds
the nesting depth of generator objects (the source recursion is unbounded);
every theorem below supplies enough fuel for its page chain. -/
def query (oracle : Oracle) : Nat → String → Dict → Trace
  | 0, _, _ => ([], (0, none))
  | fuel + 1, database_id, payload =>
      match Http.runWith oracle (queryFetch database_id payload) with
      | Except.error e =>
          ([], (Http.countCalls oracle (queryFetch database_id payload), some e))
      | Except.ok data =>
          chargeFirst (Http.countCalls oracle (queryFetch database_id payload))
            (Client.paginate
              (fun d kw => Elem.genOf (query oracle fuel d kw))
              data database_id (some payload))

/-- The request half of `Databases.list` (lines 196-197): GET `databases`. -/
def listFetch (payload : Dict) : Http JVal :=
  Http.andThen (Client.request "GET" (buildEndpoint "databases" none) payload)
    (fun r => Http.pure r.body)

/-- Embedding of the generator `Databases.list` (lines 189-198), run to
exhaustion; structure as for `query`, with no positional argument. -/
def list (oracle : Oracle) : Nat → Dict → Trace
  | 0, _ => ([], (0, none))
  | fuel + 1, payload =>
      match Http.runWith oracle (listFetch payload) with
      | Except.error e =>
          ([], (Http.countCalls oracle (listFetch payload), some e))
      | Except.ok data =>
          chargeFirst (Http.countCalls oracle (listFetch payload))
            (Client.paginate
              (fun (_ : Unit) kw => Elem.genOf (list oracle fuel kw))
              data () (some payload))

/-- Embedding of `Databases.create` (lines 157-165): one POST, decoded body
returned directly. -/
def create (payload : Dict) : Http JVal :=
  Http.andThen (Client.request "POST" (buildEndpoint "databases" none) payload)
    (fun r => Http.pure r.body)

/-- Embedding of `Databases.update` (lines 167-176): one PATCH, decoded
body returned directly. -/
def update (database_id : String) (payload : Dict) : Http JVal :=
  Http.andThen (Client.request "PATCH" (buildEndpoint "databases" (some database_id)) payload)
    (fun r => Http.pure r.body)

/-- Embedding of `Databases.retrieve` (lines 178-187): one GET, decoded
body returned directly. -/
def retrieve (database_id : String) (payload : Dict) : Http JVal :=
  Http.andThen (Client.request "GET" (buildEndpoint "databases" (some database_id)) payload)
    (fun r => Http.pure r.body)

end Databases

namespace Users

/-- Embedding of `Users.retrieve` (lines 302-311): one GET, decoded body
returned directly. -/
def retrieve (user_id : String) (payload : Dict) : Http JVal :=
  Http.andThen (Client.request "GET" (buildEndpoint "users" (some user_id)) payload)
    (fun r => Http.pure r.body)

/-- The request half of `Users.list` (lines 320-321): GET `users`. -/
def listFetch (payload : Dict) : Http JVal :=
  Http.andThen (Client.request "GET" (buildEndpoint "users" none) payload)
    (fun r => Http.pure r.body)

/-- Embedding of the generator `Users.list` (lines 313-322), run to
exhaustion; structure as for `Databases.list`. -/
def list (oracle : Oracle) : Nat → Dict → Trace
  | 0, _ => ([], (0, none))
  | fuel + 1, payload =>
      match Http.runWith oracle (listFetch payload) with
      | Except.error e =>
          ([], (Http.countCalls oracle (listFetch payload), some e))
      | Except.ok data =>
          chargeFirst (Http.countCalls oracle (listFetch payload))
            (Client.paginate
              (fun (_ : Unit) kw => Elem.genOf (list oracle fuel kw))
              data () (some payload))

/-- Embedding of `Users.me` (lines 324-331): one GET to `users/me` with no
JSON payload (modelled as the empty dict), decoded body returned
directly. -/
def me : Http JVal :=
  Http.andThen (Client.request "GET" (buildEndpoint "users" (some "me")) [])
    (fun r => Http.pure r.body)

end Users

namespace Blocks

/-- Embedding of `Blocks.delete` (lines 263-272): one DELETE, decoded body
returned directly. -/
def delete (block_id : String) (payload : Dict) : Http JVal :=
  Http.andThen (Client.request "DELETE" (buildEndpoint "blocks" (some block_id)) payload)
    (fun r => Http.pure r.body)

end Blocks

namespace BlocksChildren

/-- The request half of `BlocksChildren.list` (lines 284-285): GET
`blocks/{block_id}/children` (built inline in the source, not via
`_build_endpoint`). -/
def listFetch (block_id : String) (payload : Dict) : Http JVal :=
  Http.andThen (Client.request "GET" ("blocks/" ++ block_id ++ "/children") payload)
    (fun r => Http.pure r.body)

/-- Embedding of the generator `BlocksChildren.list` (lines 276-286), run
to exhaustion; structure as for `Databases.query`. -/
def list (oracle : Oracle) : Nat → String → Dict → Trace
  | 0, _, _ => ([], (0, none))
  | fuel + 1, block_id, payload =>
      match Http.runWith oracle (listFetch block_id payload) with
      | Except.error e =>
          ([], (Http.countCalls oracle (listFetch block_id payload), some e))
      | Except.ok data =>
          chargeFirst (Http.countCalls oracle (listFetch block_id payload))
            (Client.paginate
              (fun b kw => Elem.genOf (list oracle fuel b kw))
              data block_id (some payload))

end BlocksChildren

namespace Search

/-- The request half of `Search.__call__` (lines 342-343): POST `search`. -/
def callFetch (payload : Dict) : Http JVal :=
  Http.andThen (Client.request "POST" (buildEndpoint "search" none) payload)
    (fun r => Http.pure r.body)

/-- Embedding of the generator `Search.__call__` (lines 335-344), run to
exhaustion; structure as for `Databases.list`. -/
def call (oracle : Oracle) : Nat → Dict → Trace
  | 0, _ => ([], (0, none))
  | fuel + 1, payload =>
      match Http.runWith oracle (callFetch payload) with
      | Except.error e =>
          ([], (Http.countCalls oracle (callFetch payload), some e))
      | Except.ok data =>
          chargeFirst (Http.countCalls oracle (callFetch payload))
            (Client.paginate
              (fun (_ : Unit) kw => Elem.genOf (call oracle fuel kw))
              data () (some payload))

end Search

/-- Remove every entry with the given key (used to state that all entries
other than the cursor are untouched by cursor injection). -/
def eraseKey : Dict → String → Dict
  | [], _ => []
  | (k', v) :: es, k => if k' = k then eraseKey es k else (k', v) :: eraseKey es k

theorem alookup_dinsert_self (l : Dict) (k : String) (v : JVal) :
    alookup (dinsert l k v) k = some v := by
  induction l with
  | nil => simp [dinsert, alookup]
  | cons p es ih =>
      obtain ⟨k', v'⟩ := p
      by_cases h : k' = k
      · simp [dinsert, h, alookup]
      · simp [dinsert, h, alookup, ih]

theorem eraseKey_dinsert (l : Dict) (k : String) (v : JVal) :
    eraseKey (dinsert l k v) k = eraseKey l k := by
  induction l with
  | nil => simp [dinsert, eraseKey]
  | cons p es ih =>
      obtain ⟨k', v'⟩ := p
      by_cases h : k' = k
      · simp [dinsert, h, eraseKey]
      · simp [dinsert, h, eraseKey, ih]

/-- C2: for an initial page with `has_more` truthy and `next_cursor = cur`,
`Client.paginate` invokes the fetch callable with the same positional
arguments (`args` appears unchanged in the call), with `start_cursor` set
exactly to `cur` in the keyword arguments, and with every other keyword
entry untouched (the dict with `start_cursor` erased is unchanged). -/
theorem paginate_next_call_uses_cursor_and_keeps_params {A : Type}
    (fnCall : A → Dict → Elem) (data : JVal) (args : A) (kw : Dict) (hm cur : JVal)
    (h1 : jGet data "has_more" = Except.ok hm) (h2 : truthy hm = true)
    (h3 : jGet data "next_cursor" = Except.ok cur) :
    Client.paginate fnCall data args (some kw) =
      ([(0, Elem.page data), (0, fnCall args (dinsert kw "start_cursor" cur))], (0, none))
    ∧ alookup (dinsert kw "start_cursor" cur) "start_cursor" = some cur
    ∧ eraseKey (dinsert kw "start_cursor" cur) "start_cursor" = eraseKey kw "start_cursor" := by
  refine ⟨?_, alookup_dinsert_self kw "start_cursor" cur, eraseKey_dinsert kw "start_cursor" cur⟩
  simp [Client.paginate, h1, h2, h3, injectCursor]

/-- Witness for C2 at a concrete page with `has_more = true`,
`next_cursor = "X"` and empty keyword arguments. -/
theorem paginate_next_call_uses_cursor_and_keeps_params_witness :
    Client.paginate (fun (_ : Unit) kw => Elem.page (JVal.dict kw))
        (JVal.dict [("has_more", JVal.bool true), ("next_cursor", JVal.str "X")]) () (some []) =
      ([(0, Elem.page (JVal.dict [("has_more", JVal.bool true), ("next_cursor", JVal.str "X")])),
        (0, Elem.page (JVal.dict (dinsert [] "start_cursor" (JVal.str "X"))))], (0, none))
    ∧ alookup (dinsert [] "start_cursor" (JVal.str "X")) "start_cursor" = some (JVal.str "X")
    ∧ eraseKey (dinsert [] "start_cursor" (JVal.str "X")) "start_cursor" =
        eraseKey [] "start_cursor" :=
  paginate_next_call_uses_cursor_and_keeps_params _ _ () [] _ _ rfl rfl rfl

/-- C3: for a page whose `has_more` is falsy, `Client.paginate` yields
exactly one element — the page itself — with zero transport calls at every
demand, ends normally, and never invokes the fetch callable (the trace is
the same for any two callables). -/
theorem paginate_has_more_false_singleton_no_fetch {A : Type}
    (f g : A → Dict → Elem) (data : JVal) (args : A) (kwargs : Option Dict) (hm : JVal)
    (h1 : jGet data "has_more" = Except.ok hm) (h2 : truthy hm = false) :
    Client.paginate f data args kwargs = ([(0, Elem.page data)], (0, none))
    ∧ Client.paginate f data args kwargs = Client.paginate g data args kwargs := by
  constructor
  · simp [Client.paginate, h1, h2]
  · simp [Client.paginate, h1, h2]

/-- Witness for C3 at a concrete page with `has_more = false`. -/
theorem paginate_has_more_false_singleton_no_fetch_witness :
    Client.paginate (fun (_ : Unit) kw => Elem.page (JVal.dict kw))
        (JVal.dict [("has_more", JVal.bool false)]) () (some []) =
      ([(0, Elem.page (JVal.dict [("has_more", JVal.bool false)]))], (0, none))
    ∧ Client.paginate (fun (_ : Unit) kw => Elem.page (JVal.dict kw))
        (JVal.dict [("has_more", JVal.bool false)]) () (some []) =
      Client.paginate (fun (_ : Unit) _ => Elem.page JVal.null)
        (JVal.dict [("has_more", JVal.bool false)]) () (some []) :=
  paginate_has_more_false_singleton_no_fetch _ _ _ () (some []) _ rfl rfl

/-- C8: the pagination construction is deterministic in its inputs — two
runs of `Client.paginate` with identical initial page and fixed parameters,
whose fetch callables return identical elements on identical arguments,
produce identical traces. -/
theorem paginate_deterministic_in_inputs {A : Type}
    (f g : A → Dict → Elem) (data : JVal) (args : A) (kwargs : Option Dict)
    (h : ∀ a kw, f a kw = g a kw) :
    Client.paginate f data args kwargs = Client.paginate g data args kwargs := by
  have hfg : f = g := funext fun a => funext fun kw => h a kw
  rw [hfg]

/-- Witness for C8: two syntactically different but pointwise-equal fetch
stubs give identical traces. -/
theorem paginate_deterministic_in_inputs_witness :
    Client.paginate (fun (_ : Unit) kw => Elem.page (JVal.dict kw))
        (JVal.dict [("has_more", JVal.bool true), ("next_cursor", JVal.str "X")]) () (some []) =
      Client.paginate (fun (_ : Unit) kw => Elem.page (JVal.dict (kw ++ [])))
        (JVal.dict [("has_more", JVal.bool true), ("next_cursor", JVal.str "X")]) () (some []) :=
  paginate_deterministic_in_inputs _ _ _ () (some []) (fun a kw => by simp)

/-- C9: for an initial page mapping that lacks the `has_more` key,
`Client.paginate` yields the page as its first element and the very next
demand raises `KeyError` — the trace ends in an exception, never in a
silent normal stop. -/
theorem paginate_missing_has_more_raises {A : Type} (f : A → Dict → Elem)
    (es : Dict) (args : A) (kwargs : Option Dict)
    (h : alookup es "has_more" = none) :
    Client.paginate f (JVal.dict es) args kwargs =
      ([(0, Elem.page (JVal.dict es))], (0, some (PyErr.keyError "has_more"))) := by
  simp [Client.paginate, jGet, h]

/-- Witness for C9 at a concrete page mapping without `has_more`. -/
theorem paginate_missing_has_more_raises_witness :
    Client.paginate (fun (_ : Unit) kw => Elem.page (JVal.dict kw))
        (JVal.dict [("results", JVal.arr [])]) () (some []) =
      ([(0, Elem.page (JVal.dict [("results", JVal.arr [])]))],
       (0, some (PyErr.keyError "has_more"))) :=
  paginate_missing_has_more_raises _ _ () (some []) rfl

/-- C10: under Python's calling convention the collected `**kwargs` is
always a dict, never `None`, so `Client.paginate` coincides with the
variant whose defensive fresh-dict branch is removed: the cursor is always
injected by updating the existing keyword-argument mapping. -/
theorem paginate_none_branch_unreachable {A : Type} (f : A → Dict → Elem)
    (data : JVal) (args : A) (kw : Dict) :
    Client.paginate f data args (some kw) = Client.paginateDictOnly f data args kw := by
  rfl

/-- Initial page of the two-page scenario:
`{results: [a, b], has_more: true, next_cursor: "X"}`. -/
def pageAB : JVal := JVal.dict
  [("results", JVal.arr [JVal.str "a", JVal.str "b"]),
   ("has_more", JVal.bool true),
   ("next_cursor", JVal.str "X")]

/-- Final page of the two-page scenario: `{results: [c], has_more: false}`. -/
def pageC : JVal := JVal.dict
  [("results", JVal.arr [JVal.str "c"]),
   ("has_more", JVal.bool false)]

/-- Server for the two-page scenario: a request whose payload carries a
`start_cursor` receives the final page; the initial request receives the
first page.  Both respond with status 200. -/
def twoPageOracle : Oracle := fun _ _ j =>
  match alookup j "start_cursor" with
  | some _ => { status := 200, body := pageC }
  | none => { status := 200, body := pageAB }

/-- C1 (counter-evidence): in the two-page scenario, consuming
`Databases.query` produces a first element that is the first page, but the
second element is a generator object (`Elem.gen`) — created by evaluating
`fn(*args, **kwargs)` on line 75, where `fn` is the generator function
`self.query` — not the page mapping `{results: [c], has_more: false}`; that
page only sits inside the nested generator's trace. -/
theorem query_two_page_chain_second_element_is_generator :
    Databases.query twoPageOracle 2 "db" [] =
      ([(1, Elem.page pageAB),
        (0, Elem.gen [(1, Elem.page pageC)] (0, none))],
       (0, none)) := by
  rfl

/-- C4 (counter-evidence): in the two-page scenario the per-demand
transport-call counts of `Databases.query` are `[1, 0]` with `0` calls at
the closing demand — demanding the second element performs no network
fetch at all (it merely constructs a generator object), instead of the one
synchronous fetch the spec requires. -/
theorem query_second_demand_performs_no_fetch :
    ((Databases.query twoPageOracle 2 "db" []).1.map Prod.fst = [1, 0])
    ∧ (Databases.query twoPageOracle 2 "db" []).2.1 = 0 := by
  constructor
  · rfl
  · rfl

/-- Initial page of the failing-fetch scenario:
`{results: [a], has_more: true, next_cursor: "Y"}`. -/
def pageY : JVal := JVal.dict
  [("results", JVal.arr [JVal.str "a"]),
   ("has_more", JVal.bool true),
   ("next_cursor", JVal.str "Y")]

/-- Decoded error body returned with the failing status. -/
def errBody : JVal := JVal.dict [("object", JVal.str "error")]

/-- Server for the failing-fetch scenario: the initial request succeeds
with `pageY`; any request carrying a `start_cursor` fails with status
500. -/
def failingCursorOracle : Oracle := fun _ _ j =>
  match alookup j "start_cursor" with
  | some _ => { status := 500, body := errBody }
  | none => { status := 200, body := pageY }

/-- C5 (counter-evidence): in the failing-fetch scenario, consuming
`Databases.query` to exhaustion raises nothing (the outer final outcome is
`none`): the second element is yielded successfully as a generator object
with zero transport calls, and the `HTTPError` for the cursor fetch occurs
only inside that nested generator's trace — not at the point where the
second element is demanded. -/
theorem query_failed_cursor_fetch_error_not_raised_at_second_element :
    Databases.query failingCursorOracle 2 "db" [] =
      ([(1, Elem.page pageY),
        (0, Elem.gen [] (1, some (PyErr.httpError 500 errBody)))],
       (0, none)) := by
  rfl

/-- C6: every request issued through `Client.request` performs exactly one
transport call — no retry, no backoff — and a 4xx/5xx status makes the call
return the `HTTPError` (carrying the status and decoded body) with no
response alongside it, while a success status returns the response
unchanged. -/
theorem request_non_success_raises_once_no_retry
    (oracle : Oracle) (method endpoint : String) (json : Dict) :
    Http.runWith oracle (Client.request method endpoint json) =
      (if isErrorStatus (oracle method endpoint json).status
       then Except.error (PyErr.httpError (oracle method endpoint json).status
              (oracle method endpoint json).body)
       else Except.ok (oracle method endpoint json))
    ∧ Http.countCalls oracle (Client.request method endpoint json) = 1 := by
  constructor
  · show Http.runWith oracle _ = _
    simp only [Client.request, Http.runWith]
    split
    · rfl
    · rfl
  · show Http.countCalls oracle _ = 1
    simp only [Client.request, Http.countCalls]
    split
    · rfl
    · rfl

theorem countCalls_request_then_decode (oracle : Oracle) (m ep : String) (j : Dict) :
    Http.countCalls oracle
      (Http.andThen (Client.request m ep j) (fun r => Http.pure r.body)) = 1 := by
  simp only [Client.request, Http.andThen, Http.countCalls]
  split <;> simp [Http.andThen, Http.countCalls]

/-- The decoded outcome of exactly one request round-trip, given the
server's response to it. -/
def singleResult (r : HttpResponse) : Except PyErr JVal :=
  if isErrorStatus r.status then Except.error (PyErr.httpError r.status r.body)
  else Except.ok r.body

theorem runWith_request_then_decode (oracle : Oracle) (m ep : String) (j : Dict) :
    Http.runWith oracle
      (Http.andThen (Client.request m ep j) (fun r => Http.pure r.body)) =
      singleResult (oracle m ep j) := by
  simp only [Client.request, Http.andThen, Http.runWith, singleResult]
  split <;> simp [Http.andThen, Http.runWith]

theorem paginate_steps_head {A : Type} (f : A → Dict → Elem) (data : JVal)
    (args : A) (kwargs : Option Dict) :
    (Client.paginate f data args kwargs).1.head? = some (0, Elem.page data) := by
  simp only [Client.paginate]
  cases jGet data "has_more" with
  | error e => rfl
  | ok hm =>
      by_cases h : truthy hm = true
      · simp only [h, if_true]
        cases jGet data "next_cursor" with
        | error e => rfl
        | ok cur => rfl
      · simp [h]

theorem chargeFirst_steps_head (n : Nat) (t : Trace) (p : Nat × Elem)
    (h : t.1.head? = some p) :
    (chargeFirst n t).1.head? = some (n + p.1, p.2) := by
  obtain ⟨steps, fin⟩ := t
  cases steps with
  | nil => simp at h
  | cons q rest =>
      obtain ⟨m, x⟩ := q
      simp only [List.head?_cons, Option.some.injEq] at h
      subst h
      rfl

theorem genRun_first_demand {A : Type} (oracle : Oracle) (prog : Http JVal)
    (f : A → Dict → Elem) (args : A) (payload : Dict) (t : Trace)
    (ht : t = (match Http.runWith oracle prog with
               | Except.error e => ([], (Http.countCalls oracle prog, some e))
               | Except.ok data => chargeFirst (Http.countCalls oracle prog)
                   (Client.paginate f data args (some payload))))
    (hc : Http.countCalls oracle prog = 1) :
    match Http.runWith oracle prog with
    | Except.error e => t = ([], (1, some e))
    | Except.ok data => t.1.head? = some (1, Elem.page data) := by
  cases h : Http.runWith oracle prog with
  | error e =>
      simp only [h] at ht
      subst ht
      rw [hc]
  | ok data =>
      simp only [h] at ht
      subst ht
      rw [hc]
      simpa using chargeFirst_steps_head 1 _ _ (paginate_steps_head f data args (some payload))

/-- C7: each list/query-shaped operation (`Databases.query`,
`Databases.list`, `Users.list`, `Search.__call__`,
`BlocksChildren.list`) produces a paginated lazy sequence whose first
element — whenever the initial request succeeds — is the first page,
yielded by the demand that performed that one request (and whose very first
demand re-raises the failure when it does not); each single-entity
operation (`Databases.create`/`update`/`retrieve`, `Users.retrieve`,
`Users.me`, `Blocks.delete`) performs exactly one transport call and
returns the decoded mapping of that one round-trip directly, not a
sequence. -/
theorem endpoint_list_ops_paginate_single_ops_do_not
    (oracle : Oracle) (fuel : Nat) (database_id block_id user_id : String) (payload : Dict) :
    (match Http.runWith oracle (Databases.queryFetch database_id payload) with
     | Except.error e =>
         Databases.query oracle (fuel + 1) database_id payload = ([], (1, some e))
     | Except.ok data =>
         (Databases.query oracle (fuel + 1) database_id payload).1.head? =
           some (1, Elem.page data))
    ∧ (match Http.runWith oracle (Databases.listFetch payload) with
       | Except.error e =>
           Databases.list oracle (fuel + 1) payload = ([], (1, some e))
       | Except.ok data =>
           (Databases.list oracle (fuel + 1) payload).1.head? = some (1, Elem.page data))
    ∧ (match Http.runWith oracle (Users.listFetch payload) with
       | Except.error e =>
           Users.list oracle (fuel + 1) payload = ([], (1, some e))
       | Except.ok data =>
           (Users.list oracle (fuel + 1) payload).1.head? = some (1, Elem.page data))
    ∧ (match Http.runWith oracle (Search.callFetch payload) with
       | Except.error e =>
           Search.call oracle (fuel + 1) payload = ([], (1, some e))
       | Except.ok data =>
           (Search.call oracle (fuel + 1) payload).1.head? = some (1, Elem.page data))
    ∧ (match Http.runWith oracle (BlocksChildren.listFetch block_id payload) with
       | Except.error e =>
           BlocksChildren.list oracle (fuel + 1) block_id payload = ([], (1, some e))
       | Except.ok data =>
           (BlocksChildren.list oracle (fuel + 1) block_id payload).1.head? =
             some (1, Elem.page data))
    ∧ Http.runWith oracle (Databases.create payload) =
        singleResult (oracle "POST" (buildEndpoint "databases" none) payload)
    ∧ Http.countCalls oracle (Databases.create payload) = 1
    ∧ Http.runWith oracle (Databases.update database_id payload) =
        singleResult (oracle "PATCH" (buildEndpoint "databases" (some database_id)) payload)
    ∧ Http.countCalls oracle (Databases.update database_id payload) = 1
    ∧ Http.runWith oracle (Databases.retrieve database_id payload) =
        singleResult (oracle "GET" (buildEndpoint "databases" (some database_id)) payload)
    ∧ Http.countCalls oracle (Databases.retrieve database_id payload) = 1
    ∧ Http.runWith oracle (Users.retrieve user_id payload) =
        singleResult (oracle "GET" (buildEndpoint "users" (some user_id)) payload)
    ∧ Http.countCalls oracle (Users.retrieve user_id payload) = 1
    ∧ Http.runWith oracle Users.me =
        singleResult (oracle "GET" (buildEndpoint "users" (some "me")) [])
    ∧ Http.countCalls oracle Users.me = 1
    ∧ Http.runWith oracle (Blocks.delete block_id payload) =
        singleResult (oracle "DELETE" (buildEndpoint "blocks" (some block_id)) payload)
    ∧ Http.countCalls oracle (Blocks.delete block_id payload) = 1 := by
  refine ⟨?_, ?_, ?_, ?_, ?_, ?_, ?_, ?_, ?_, ?_, ?_, ?_, ?_, ?_, ?_, ?_, ?_⟩
  · exact genRun_first_demand oracle (Databases.queryFetch database_id payload)
      (fun d kw => Elem.genOf (Databases.query oracle fuel d kw)) database_id payload _
      rfl (countCalls_request_then_decode oracle _ _ _)
  · exact genRun_first_demand oracle (Databases.listFetch payload)
      (fun (_ : Unit) kw => Elem.genOf (Databases.list oracle fuel kw)) () payload _
      rfl (countCalls_request_then_decode oracle _ _ _)
  · exact genRun_first_demand oracle (Users.listFetch payload)
      (fun (_ : Unit) kw => Elem.genOf (Users.list oracle fuel kw)) () payload _
      rfl (countCalls_request_then_decode oracle _ _ _)
  · exact genRun_first_demand oracle (Search.callFetch payload)
      (fun (_ : Unit) kw => Elem.genOf (Search.call oracle fuel kw)) () payload _
      rfl (countCalls_request_then_decode oracle _ _ _)
  · exact genRun_first_demand oracle (BlocksChildren.listFetch block_id payload)
      (fun b kw => Elem.genOf (BlocksChildren.list oracle fuel b kw)) block_id payload _
      rfl (countCalls_request_then_decode oracle _ _ _)
  · exact runWith_request_then_decode oracle _ _ _
  · exact countCalls_request_then_decode oracle _ _ _
  · exact runWith_request_then_decode oracle _ _ _
  · exact countCalls_request_then_decode oracle _ _ _
  · exact runWith_request_then_decode oracle _ _ _
  · exact countCalls_request_then_decode oracle _ _ _
  · exact runWith_request_then_decode oracle _ _ _
  · exact countCalls_request_then_decode oracle _ _ _
  · exact runWith_request_then_decode oracle _ _ _
  · exact countCalls_request_then_decode oracle _ _ _
  · exact runWith_request_then_decode oracle _ _ _
  · exact countCalls_request_then_decode oracle _ _ _
